import Mathlib

/-
Verification of the pi-cache memoization engine (pi_cache/base_cache.py,
pi_cache/file_cache.py, pi_cache/in_memory_cache.py,
pi_cache/utils/time_utils.py) against its natural-language specification.

Shallow-embedding conventions used throughout this development:
- UTC instants are modelled as integers (a linear time axis; the unit is
  seconds, matching timedelta(seconds=...) in the source).  Only the order
  and additive structure of instants matters to any property proved here.
- Python exceptions are modelled by the explicit error type PyErr and
  fallible functions return Except PyErr _.
- The text layer of the json module (json.dumps / json.loads) is treated as
  the standard-library bijection between JSON documents and their textual
  form; serialization is therefore modelled down to the JSON document
  (JVal below), and a stored file is either a well-formed document or
  malformed text (StoredText below), which is exactly the distinction
  json.loads makes.
- pi_cache/models.py is not part of the sources; the model classes it
  declares (ModelMetadata, CacheEntry, TimeCheck, CacheMissError) are
  modelled from the specification, as noted on each definition.
-/

/-- Python exception values relevant to the cache code paths. -/
inductive PyErr where
| valueError (msg : String)
| typeError (msg : String)
| importError (msg : String)
| attributeError (msg : String)
| keyError (msg : String)
deriving DecidableEq, Repr

/-- Modelled from the spec: TimeCheck (pi_cache/models.py is absent from the
sources; the spec lists the three reference clocks creation, last_update and
expires_at, and the same StrEnum appears in qrev_cache/base_cache.py). -/
inductive TimeCheck where
| creation
| last_update
| expires_at
deriving DecidableEq, Repr

/-- The value of CacheSettings.expiration, a Union of int (seconds) and str
(a human-readable date expression). -/
inductive ExpirationValue where
| num (seconds : Int)
| txt (s : String)
deriving DecidableEq, Repr

/-- Python payload values that can sit in CacheEntry.data (and in the
recorded args/kwargs of the metadata): JSON-native scalars and containers,
datetime instances, tuples, and pydantic model instances (a model value
carries its fully qualified class name and its field map).  Dict keys are
modelled as strings, which is the JSON-serializable case. -/
inductive Val where
| none
| bool (b : Bool)
| int (n : Int)
| str (s : String)
| dt (t : Int)
| list (xs : List Val)
| tuple (xs : List Val)
| dict (kvs : List (String × Val))
| model (name : String) (fields : List (String × Val))

/-- Modelled from the spec: ModelMetadata (pi_cache/models.py is absent from
the sources).  Field list follows spec section 6's file format and section
3's data model: creation instant, last-update instant (nullable), explicit
expiry instant (nullable), recorded args/kwargs, from_cache flag, declared
data type identifier, flat-storage flag.  The source gives
creation_timestamp a now() default factory; validation in this development
always supplies the field, so the default is modelled as null. -/
structure ModelMetadata where
  creation_timestamp : Option Int := Option.none
  last_update_timestamp : Option Int := Option.none
  expires_at : Option Int := Option.none
  args : List Val := []
  kwargs : List (String × Val) := []
  from_cache : Bool := false
  data_type : Option String := Option.none
  is_flat_data : Bool := false

/-- Modelled from the spec: CacheEntry pairs a ModelMetadata with an
arbitrary payload value (pi_cache/models.py is absent from the sources). -/
structure CacheEntry where
  metadata : ModelMetadata
  data : Val

/-- CacheSettings from pi_cache/base_cache.py, with the FileCacheSettings
additions that matter to the verified properties folded in.  cache_dir and
lock_timeout are not needed by any claim and are omitted from the record
(the file-system model below keys files structurally per cache key). -/
structure CacheSettings where
  expiration : Option ExpirationValue := Option.none
  key_parameters : Option (List String) := Option.none
  time_check : TimeCheck := TimeCheck.creation
  return_metadata_as_member : Bool := true
  return_metadata_on_primitives : Bool := false
  is_flat_data : Bool := false
  force_data_type : Option String := Option.none
  cache_only : Bool := false
  ignore_self : Bool := false
deriving DecidableEq, Repr

/-! ### A verified decimal codec, standing in for datetime.isoformat and
datetime.fromisoformat.

The source renders datetime instants to ISO-8601 strings and parses them
back; the exact ISO grammar is irrelevant to every claim, only that the
rendering is an injective string encoding of the instant with a partial
inverse.  We realize it as a decimal rendering of the integer instant and
prove the round trip. -/

/-- One decimal digit as a character. -/
def digit_char : Nat → Char
| 0 => '0' | 1 => '1' | 2 => '2' | 3 => '3' | 4 => '4'
| 5 => '5' | 6 => '6' | 7 => '7' | 8 => '8' | 9 => '9'
| _ => '*'

def is_digit_char (c : Char) : Bool := '0' ≤ c && c ≤ '9'

def digit_val (c : Char) : Nat := c.toNat - 48

/-- Decimal digits of a positive number, least significant first. -/
def nat_to_rev : Nat → List Char
| 0 => []
| (n+1) => digit_char ((n+1) % 10) :: nat_to_rev ((n+1) / 10)
decreasing_by exact Nat.div_lt_self (Nat.succ_pos _) (by norm_num)

/-- Value of a digit list, least significant first. -/
def parse_rev : List Char → Nat
| [] => 0
| c :: cs => digit_val c + 10 * parse_rev cs

def nat_render (n : Nat) : List Char :=
  if n = 0 then ['0'] else (nat_to_rev n).reverse

def parse_chars (cs : List Char) : Nat := parse_rev cs.reverse

theorem digit_val_digit_char {d : Nat} (h : d < 10) : digit_val (digit_char d) = d := by
  interval_cases d <;> rfl

theorem is_digit_char_digit_char {d : Nat} (h : d < 10) : is_digit_char (digit_char d) = true := by
  interval_cases d <;> rfl

theorem parse_rev_nat_to_rev : ∀ n, parse_rev (nat_to_rev n) = n := by
  intro n
  induction n using Nat.strong_induction_on with
  | _ n ih =>
    match n with
    | 0 => simp [nat_to_rev, parse_rev]
    | (m+1) =>
      rw [nat_to_rev, parse_rev, digit_val_digit_char (Nat.mod_lt _ (by norm_num)),
        ih ((m+1) / 10) (Nat.div_lt_self (Nat.succ_pos _) (by norm_num))]
      exact Nat.mod_add_div (m+1) 10

theorem nat_to_rev_all_digits : ∀ n, (nat_to_rev n).all is_digit_char = true := by
  intro n
  induction n using Nat.strong_induction_on with
  | _ n ih =>
    match n with
    | 0 => simp [nat_to_rev]
    | (m+1) =>
      rw [nat_to_rev, List.all_cons,
        is_digit_char_digit_char (Nat.mod_lt _ (by norm_num)),
        ih ((m+1) / 10) (Nat.div_lt_self (Nat.succ_pos _) (by norm_num))]
      rfl

theorem parse_chars_nat_render (n : Nat) : parse_chars (nat_render n) = n := by
  unfold nat_render parse_chars
  by_cases h : n = 0
  · simp [h, parse_rev, digit_val]
  · rw [if_neg h, List.reverse_reverse, parse_rev_nat_to_rev]

theorem nat_render_all_digits (n : Nat) : (nat_render n).all is_digit_char = true := by
  unfold nat_render
  by_cases h : n = 0
  · simp [h, is_digit_char]
  · rw [if_neg h, List.all_reverse]
    exact nat_to_rev_all_digits n

theorem nat_render_ne_nil (n : Nat) : nat_render n ≠ [] := by
  unfold nat_render
  by_cases h : n = 0
  · simp [h]
  · rw [if_neg h]
    intro hc
    have := parse_rev_nat_to_rev n
    rw [List.reverse_eq_nil_iff.mp hc] at this
    exact h (by simpa [parse_rev] using this.symm)

/-- Stand-in for datetime.isoformat (TypeRegistry serialize_datetime in
pi_cache/base_cache.py): render the instant as a string. -/
def serialize_datetime (t : Int) : String :=
  if t < 0 then String.mk ('-' :: nat_render t.natAbs) else String.mk (nat_render t.toNat)

/-- Core of the fromisoformat stand-in: an optional minus sign followed by
at least one decimal digit. -/
def parse_signed : List Char → Option Int
| [] => Option.none
| c :: cs =>
  if c = '-' then
    if cs.isEmpty then Option.none
    else if cs.all is_digit_char then Option.some (-((parse_chars cs : Nat) : Int))
    else Option.none
  else if (c :: cs).all is_digit_char then Option.some (((parse_chars (c :: cs) : Nat) : Int))
  else Option.none

/-- Stand-in for datetime.fromisoformat: parse a rendered instant, rejecting
anything that is not an optional minus sign followed by decimal digits. -/
def datetime_fromisoformat (s : String) : Option Int := parse_signed s.data

theorem not_digit_dash : is_digit_char '-' = false := by decide

theorem datetime_roundtrip (t : Int) :
    datetime_fromisoformat (serialize_datetime t) = Option.some t := by
  unfold serialize_datetime datetime_fromisoformat
  by_cases h : t < 0
  · rw [if_pos h]
    show parse_signed ('-' :: nat_render t.natAbs) = Option.some t
    rw [parse_signed]
    rw [if_pos rfl, if_neg (by simpa [List.isEmpty_iff] using nat_render_ne_nil t.natAbs)]
    rw [if_pos (nat_render_all_digits t.natAbs), parse_chars_nat_render]
    congr 1
    omega
  · rw [if_neg h]
    obtain ⟨c, cs, hcs⟩ : ∃ c cs, nat_render t.toNat = c :: cs := by
      cases hh : nat_render t.toNat with
      | nil => exact absurd hh (nat_render_ne_nil _)
      | cons c cs => exact ⟨c, cs, rfl⟩
    show parse_signed (nat_render t.toNat) = Option.some t
    rw [hcs, parse_signed]
    have hdig : ((c :: cs).all is_digit_char) = true := by
      rw [← hcs]; exact nat_render_all_digits t.toNat
    have hc : c ≠ '-' := by
      intro hceq
      rw [List.all_cons, hceq, not_digit_dash] at hdig
      simp at hdig
    rw [if_neg hc, if_pos hdig, ← hcs, parse_chars_nat_render]
    congr 1
    omega

/-! ### parse_date_string (pi_cache/utils/time_utils.py)

The source handles "now", relative numeric offsets, named keywords, absolute
dates with timezone abbreviations, and a dateutil fallback.  Only the "now"
and integer-valued relative-offset branches are exercised by the verified
properties; they are embedded faithfully below (with the numeric part of the
pattern restricted to integer literals, since a float amount never occurs in
any claim).  Month and year offsets need calendar arithmetic over concrete
dates, which is outside the integer time axis, and the remaining branches
(named keywords, timezone tables, dateutil parsing) are likewise not reached
by any claim; all of those inputs are mapped to the same ValueError the
source raises for unparseable strings, or left out as noted. -/

/-- Seconds per unit for the relative-offset pattern of parse_date_string
(second/minute/hour/day/week families; timedelta semantics). -/
def unit_seconds (u : String) : Option Int :=
  if ["second", "seconds", "sec", "s"].contains u then Option.some 1
  else if ["minute", "minutes", "min", "m"].contains u then Option.some 60
  else if ["hour", "hours", "h"].contains u then Option.some 3600
  else if ["day", "days", "d"].contains u then Option.some 86400
  else if ["week", "weeks", "w"].contains u then Option.some 604800
  else Option.none

/-- parse_date_string from pi_cache/utils/time_utils.py (the fragment
reached by the verified properties; see the section comment). -/
def parse_date_string (date_string : String) (reference_time : Int) : Except PyErr Int :=
  let ds := date_string.toLower.trim
  if ds = "now" then Except.ok reference_time
  else
    let digits := ds.takeWhile Char.isDigit
    let rest := (ds.drop digits.length).trim
    match digits.toNat? with
    | Option.some n =>
      (match unit_seconds rest with
       | Option.some secs => Except.ok (reference_time + (n : Int) * secs)
       | Option.none =>
         if rest.endsWith "s" then
           match unit_seconds (rest.dropRight 1) with
           | Option.some secs => Except.ok (reference_time + (n : Int) * secs)
           | Option.none => Except.error (PyErr.valueError ("Unable to parse the date string: " ++ ds))
         else Except.error (PyErr.valueError ("Unable to parse the date string: " ++ ds)))
    | Option.none => Except.error (PyErr.valueError ("Unable to parse the date string: " ++ ds))

/-! ### Expiration policy: is_cache_valid (pi_cache/base_cache.py, lines
386-409). -/

/-- is_cache_valid from pi_cache/base_cache.py.  Returns Except because the
string-expiration branch delegates to parse_date_string, which can raise.
The source's final else (invalid time_check) is unrepresentable here because
TimeCheck has exactly the three valid constructors. -/
def is_cache_valid (metadata : ModelMetadata) (current_time : Int)
    (settings : CacheSettings) : Except PyErr Bool :=
  match settings.expiration with
  | Option.none => Except.ok true
  | Option.some expiration =>
    match settings.time_check with
    | TimeCheck.expires_at =>
      Except.ok (match metadata.expires_at with
                 | Option.none => true
                 | Option.some t => decide (current_time < t))
    | tc =>
      let reference_time : Option Int :=
        match tc with
        | TimeCheck.creation => metadata.creation_timestamp
        | TimeCheck.last_update =>
          (metadata.last_update_timestamp).orElse (fun _ => metadata.creation_timestamp)
        | TimeCheck.expires_at => Option.none
      match reference_time with
      | Option.none => Except.ok true
      | Option.some rt =>
        match expiration with
        | ExpirationValue.txt s =>
          (parse_date_string s rt).map (fun et => decide (current_time < et))
        | ExpirationValue.num d => Except.ok (decide (current_time < rt + d))

/-! ### Claim C2 and C3: expiration policy properties. -/

/-- C2: for a fixed metadata record with time_check=CREATION and a configured
numeric expiration duration, is_cache_valid(metadata, now, settings) is true
at now = creation_timestamp and false at every now after
creation_timestamp + duration seconds. -/
theorem c2_creation_expiration_monotone (m : ModelMetadata) (s : CacheSettings)
    (t0 d : Int)
    (htc : s.time_check = TimeCheck.creation)
    (hexp : s.expiration = Option.some (ExpirationValue.num d))
    (hd : 0 < d)
    (hct : m.creation_timestamp = Option.some t0) :
    is_cache_valid m t0 s = Except.ok true ∧
    ∀ now : Int, t0 + d < now → is_cache_valid m now s = Except.ok false := by
  unfold is_cache_valid
  rw [hexp, htc, hct]
  refine ⟨?_, ?_⟩
  · simp only [Except.ok.injEq, decide_eq_true_eq]
    omega
  · intro now hnow
    simp only [Except.ok.injEq, decide_eq_false_iff_not, not_lt]
    omega

/-- Witness for c2_creation_expiration_monotone at a concrete entry created
at instant 0 with a 3600-second duration. -/
theorem c2_creation_expiration_monotone_witness :
    is_cache_valid { creation_timestamp := Option.some 0 } 0
      { expiration := Option.some (ExpirationValue.num 3600),
        time_check := TimeCheck.creation } = Except.ok true ∧
    is_cache_valid { creation_timestamp := Option.some 0 } 7200
      { expiration := Option.some (ExpirationValue.num 3600),
        time_check := TimeCheck.creation } = Except.ok false := by
  have h := c2_creation_expiration_monotone
    { creation_timestamp := Option.some 0 }
    { expiration := Option.some (ExpirationValue.num 3600),
      time_check := TimeCheck.creation }
    0 3600 rfl rfl (by norm_num) rfl
  exact ⟨h.1, h.2 7200 (by norm_num)⟩

/-- C3 counterexample: with time_check=EXPIRES_AT but no configured
expiration, the code returns true even though the stored expiry instant (0)
is already in the past at now = 5, falsifying the claimed if-and-only-if. -/
theorem c3_counterexample :
    is_cache_valid { expires_at := Option.some 0 } 5
      { time_check := TimeCheck.expires_at } = Except.ok true ∧
    ¬ (({ expires_at := Option.some 0 } : ModelMetadata).expires_at = Option.none ∨
       (5 : Int) < 0) := by
  refine ⟨rfl, ?_⟩
  rintro (h | h)
  · exact Option.noConfusion h
  · omega

/-- C3 amended: whenever time_check=EXPIRES_AT and an expiration is
configured (non-null, of either kind), is_cache_valid returns true iff
metadata.expires_at is null or now is before the stored expiry instant, and
the result does not depend on which expiration value is configured.  With no
expiration configured the function returns true unconditionally (see
c3_counterexample). -/
theorem c3_expires_at_amended (m : ModelMetadata) (now : Int) (s : CacheSettings)
    (e : ExpirationValue)
    (htc : s.time_check = TimeCheck.expires_at)
    (hexp : s.expiration = Option.some e) :
    (is_cache_valid m now s = Except.ok true ↔
       (m.expires_at = Option.none ∨ ∃ t, m.expires_at = Option.some t ∧ now < t)) ∧
    ∀ e2 : ExpirationValue,
      is_cache_valid m now { s with expiration := Option.some e2 } =
        is_cache_valid m now s := by
  unfold is_cache_valid
  rw [hexp, htc]
  constructor
  · cases hea : m.expires_at with
    | none => simp
    | some t => simp [hea]
  · intro e2
    rfl

/-- Witness for c3_expires_at_amended at a concrete metadata record whose
stored expiry instant 10 is still ahead of now = 3, under a configured
numeric expiration of 0 seconds (whose value is irrelevant in this mode). -/
theorem c3_expires_at_amended_witness :
    (is_cache_valid { expires_at := Option.some 10 } 3
       { expiration := Option.some (ExpirationValue.num 0),
         time_check := TimeCheck.expires_at } = Except.ok true ↔
       (({ expires_at := Option.some 10 } : ModelMetadata).expires_at = Option.none ∨
        ∃ t, ({ expires_at := Option.some 10 } : ModelMetadata).expires_at = Option.some t ∧
          (3 : Int) < t)) ∧
    is_cache_valid { expires_at := Option.some 10 } 3
      { expiration := Option.some (ExpirationValue.txt "1h"),
        time_check := TimeCheck.expires_at } =
      is_cache_valid { expires_at := Option.some 10 } 3
        { expiration := Option.some (ExpirationValue.num 0),
          time_check := TimeCheck.expires_at } := by
  have h := c3_expires_at_amended { expires_at := Option.some 10 } 3
    { expiration := Option.some (ExpirationValue.num 0),
      time_check := TimeCheck.expires_at }
    (ExpirationValue.num 0) rfl rfl
  exact ⟨h.1, h.2 (ExpirationValue.txt "1h")⟩

/-! ### JSON documents and the serialization protocol
(pi_cache/base_cache.py: serialize, custom_encoder, custom_decoder,
deserialize, _deserialize_data).

serialize is json.dumps(entry, cls=DateTimeEncoder, default=custom_encoder);
passing default= overrides the DateTimeEncoder.default method, so the
effective behavior is: JSON-native values are emitted natively and every
other object goes through custom_encoder.  We model the composite down to
the JSON document.  deserialize's string branch is
json.loads(data, object_hook=custom_decoder) followed by the old-format key
rename, CacheEntry.model_validate and _deserialize_data; an object_hook is
applied bottom-up to every parsed object, which is modelled by the
structurally recursive decoder below (the source's dict comprehension
re-applies custom_decoder to already-decoded values, which is the identity
on them, so the bottom-up recursion is exactly equivalent). -/

/-- A JSON document: what json.dumps emits and json.loads returns. -/
inductive JVal where
| null
| bool (b : Bool)
| num (n : Int)
| str (s : String)
| arr (xs : List JVal)
| obj (kvs : List (String × JVal))

/-- What dynamic class resolution (importlib.import_module + getattr) finds
for a qualified type name in the running process. -/
inductive Resolution where
| modelClass
| nonModelClass
| unresolvable
deriving DecidableEq, Repr

/-- The process-wide decoding context: which type names have a registered
TypeRegistry deserializer, and what importing a qualified name resolves to.
In-process, custom_encoder auto-registers every pydantic model class it
meets, so after a serialize both maps cover the entry's model names. -/
structure DecodeEnv where
  registered : String → Bool
  resolve : String → Resolution

/-- BaseCache._qualified_name on payload values: the fully qualified name of
the Python type of the value. -/
def qualified_name : Val → String
| Val.none => "builtins.NoneType"
| Val.bool _ => "builtins.bool"
| Val.int _ => "builtins.int"
| Val.str _ => "builtins.str"
| Val.dt _ => "datetime.datetime"
| Val.list _ => "builtins.list"
| Val.tuple _ => "builtins.tuple"
| Val.dict _ => "builtins.dict"
| Val.model name _ => name

mutual
/-- custom_encoder composed with json.dumps's native encoding: datetimes
render to their (modelled) isoformat string with no marker, lists and tuples
both become JSON arrays, dicts become objects, and a pydantic model becomes
the auto-registered envelope with its dumped field map.  Total because Val
contains only the payload shapes the claims quantify over. -/
def custom_encoder : Val → JVal
| Val.none => JVal.null
| Val.bool b => JVal.bool b
| Val.int n => JVal.num n
| Val.str s => JVal.str s
| Val.dt t => JVal.str (serialize_datetime t)
| Val.list xs => JVal.arr (custom_encoder_list xs)
| Val.tuple xs => JVal.arr (custom_encoder_list xs)
| Val.dict kvs => JVal.obj (custom_encoder_pairs kvs)
| Val.model name fields =>
  JVal.obj [("__pydantic_model__", JVal.str name),
            ("__data__", JVal.obj (custom_encoder_pairs fields))]

def custom_encoder_list : List Val → List JVal
| [] => []
| v :: vs => custom_encoder v :: custom_encoder_list vs

def custom_encoder_pairs : List (String × Val) → List (String × JVal)
| [] => []
| (k, v) :: kvs => (k, custom_encoder v) :: custom_encoder_pairs kvs
end

/-- A nullable instant as it appears in the dumped metadata (datetime fields
survive model_dump as datetime objects and are then rendered by the
encoder). -/
def dump_opt_time : Option Int → JVal
| Option.none => JVal.null
| Option.some t => JVal.str (serialize_datetime t)

def dump_opt_str : Option String → JVal
| Option.none => JVal.null
| Option.some s => JVal.str s

/-- ModelMetadata.model_dump followed by json.dumps's rendering: the field
map of the metadata record, in declaration order. -/
def model_metadata_dump (md : ModelMetadata) : JVal :=
  JVal.obj [
    ("creation_timestamp", dump_opt_time md.creation_timestamp),
    ("last_update_timestamp", dump_opt_time md.last_update_timestamp),
    ("expires_at", dump_opt_time md.expires_at),
    ("args", JVal.arr (custom_encoder_list md.args)),
    ("kwargs", JVal.obj (custom_encoder_pairs md.kwargs)),
    ("from_cache", JVal.bool md.from_cache),
    ("data_type", dump_opt_str md.data_type),
    ("is_flat_data", JVal.bool md.is_flat_data)]

/-- BaseCache.serialize down to the JSON document: custom_encoder(entry)
is entry.model_dump(), whose metadata sub-model dumps to its field map and
whose payload field passes through untouched, after which json.dumps renders
every component (spec section 6's nested file format). -/
def serialize (entry : CacheEntry) : JVal :=
  JVal.obj [("metadata", model_metadata_dump entry.metadata),
            ("data", custom_encoder entry.data)]

/-- model_class.model_validate(v) for a registered pydantic model class
named name: accepts the dumped field map (reconstructing the model) or an
instance of the class itself; anything else is a ValidationError, which in
pydantic is a ValueError.  Field-level validation of the concrete class is
not modelled; the claims only quantify over models with plain field
values. -/
def model_validate_payload (name : String) : Val → Except PyErr Val
| Val.dict fields => Except.ok (Val.model name fields)
| Val.model n2 f2 =>
  if n2 = name then Except.ok (Val.model n2 f2)
  else Except.error (PyErr.valueError "validation error")
| _ => Except.error (PyErr.valueError "validation error")

/-- The marker dispatch of custom_decoder on one decoded object (the
object_hook receives each parsed JSON object with its values already
decoded).  The __model_metadata__ branch would produce a bare ModelMetadata
value, which no encoder ever emits and which lies outside the payload value
model, so it maps to an error; every theorem below stays away from it. -/
def decode_object (env : DecodeEnv) (dkvs : List (String × Val)) : Except PyErr Val :=
  match List.lookup "__model_metadata__" dkvs with
  | Option.some _ =>
    (match List.lookup "data" dkvs with
     | Option.some _ => Except.error (PyErr.typeError "ModelMetadata value outside the payload model")
     | Option.none => Except.error (PyErr.keyError "data"))
  | Option.none =>
    match List.lookup "__datetime__" dkvs with
    | Option.some (Val.str s) =>
      (match datetime_fromisoformat s with
       | Option.some t => Except.ok (Val.dt t)
       | Option.none => Except.error (PyErr.valueError "Invalid isoformat string"))
    | Option.some _ => Except.error (PyErr.typeError "fromisoformat: argument must be str")
    | Option.none =>
      match List.lookup "__pydantic_model__" dkvs, List.lookup "__data__" dkvs with
      | Option.some (Val.str name), Option.some d =>
        if env.registered name then model_validate_payload name d
        else
          (match env.resolve name with
           | Resolution.modelClass => model_validate_payload name d
           | Resolution.nonModelClass => Except.error (PyErr.attributeError "model_validate")
           | Resolution.unresolvable => Except.error (PyErr.importError name))
      | Option.some (Val.list _), Option.some _ => Except.error (PyErr.typeError "unhashable type")
      | Option.some (Val.dict _), Option.some _ => Except.error (PyErr.typeError "unhashable type")
      | Option.some (Val.model _ _), Option.some _ => Except.error (PyErr.typeError "unhashable type")
      | Option.some _, Option.some _ => Except.error (PyErr.attributeError "rsplit")
      | _, _ => Except.ok (Val.dict dkvs)

mutual
/-- json.loads with object_hook=custom_decoder, at the document level:
scalars pass through (an ISO datetime string parses as a plain string, since
the encoder leaves no marker), arrays decode elementwise, and every object
goes through the marker dispatch bottom-up. -/
def custom_decoder (env : DecodeEnv) : JVal → Except PyErr Val
| JVal.null => Except.ok Val.none
| JVal.bool b => Except.ok (Val.bool b)
| JVal.num n => Except.ok (Val.int n)
| JVal.str s => Except.ok (Val.str s)
| JVal.arr xs => (custom_decoder_list env xs).map Val.list
| JVal.obj kvs => (custom_decoder_pairs env kvs).bind (decode_object env)

def custom_decoder_list (env : DecodeEnv) : List JVal → Except PyErr (List Val)
| [] => Except.ok []
| x :: xs => do
  let v ← custom_decoder env x
  let vs ← custom_decoder_list env xs
  Except.ok (v :: vs)

def custom_decoder_pairs (env : DecodeEnv) : List (String × JVal) → Except PyErr (List (String × Val))
| [] => Except.ok []
| (k, x) :: xs => do
  let v ← custom_decoder env x
  let vs ← custom_decoder_pairs env xs
  Except.ok ((k, v) :: vs)
end

/-- pydantic validation of one nullable datetime metadata field: absent or
null gives null, a datetime passes, an ISO string is parsed (a parse failure
is a ValidationError, i.e. a ValueError). -/
def validate_time_field (dkvs : List (String × Val)) (k : String) : Except PyErr (Option Int) :=
  match List.lookup k dkvs with
  | Option.none => Except.ok Option.none
  | Option.some Val.none => Except.ok Option.none
  | Option.some (Val.dt t) => Except.ok (Option.some t)
  | Option.some (Val.str s) =>
    (match datetime_fromisoformat s with
     | Option.some t => Except.ok (Option.some t)
     | Option.none => Except.error (PyErr.valueError "validation error: datetime"))
  | Option.some _ => Except.error (PyErr.valueError "validation error: datetime")

/-- Modelled from the spec: ModelMetadata.model_validate (pydantic
validation of the metadata mapping; pi_cache/models.py is absent from the
sources).  Fields follow spec section 6; absent nullable fields default to
null, absent containers to empty, absent flags to false. -/
def model_metadata_validate (v : Val) : Except PyErr ModelMetadata :=
  match v with
  | Val.dict dkvs => do
    let ct ← validate_time_field dkvs "creation_timestamp"
    let lut ← validate_time_field dkvs "last_update_timestamp"
    let ea ← validate_time_field dkvs "expires_at"
    let args ← (match List.lookup "args" dkvs with
      | Option.none => Except.ok []
      | Option.some (Val.list xs) => Except.ok xs
      | Option.some (Val.tuple xs) => Except.ok xs
      | Option.some _ => Except.error (PyErr.valueError "validation error: args"))
    let kwargs ← (match List.lookup "kwargs" dkvs with
      | Option.none => Except.ok []
      | Option.some (Val.dict kvs) => Except.ok kvs
      | Option.some _ => Except.error (PyErr.valueError "validation error: kwargs"))
    let fc ← (match List.lookup "from_cache" dkvs with
      | Option.none => Except.ok false
      | Option.some (Val.bool b) => Except.ok b
      | Option.some _ => Except.error (PyErr.valueError "validation error: from_cache"))
    let dt ← (match List.lookup "data_type" dkvs with
      | Option.none => Except.ok Option.none
      | Option.some Val.none => Except.ok Option.none
      | Option.some (Val.str s) => Except.ok (Option.some s)
      | Option.some _ => Except.error (PyErr.valueError "validation error: data_type"))
    let ifd ← (match List.lookup "is_flat_data" dkvs with
      | Option.none => Except.ok false
      | Option.some (Val.bool b) => Except.ok b
      | Option.some _ => Except.error (PyErr.valueError "validation error: is_flat_data"))
    Except.ok { creation_timestamp := ct, last_update_timestamp := lut, expires_at := ea,
                args := args, kwargs := kwargs, from_cache := fc, data_type := dt,
                is_flat_data := ifd }
  | _ => Except.error (PyErr.valueError "validation error: ModelMetadata expects a mapping")

/-- Modelled from the spec: CacheEntry.model_validate (pi_cache/models.py is
absent from the sources).  The metadata field is populated under its
_metadata alias (the constructor keyword used throughout the source); both
fields are required. -/
def cache_entry_validate (v : Val) : Except PyErr CacheEntry :=
  match v with
  | Val.dict dkvs =>
    (match List.lookup "_metadata" dkvs with
     | Option.some mv => do
       let md ← model_metadata_validate mv
       (match List.lookup "data" dkvs with
        | Option.some d => Except.ok { metadata := md, data := d }
        | Option.none => Except.error (PyErr.valueError "validation error: field required: data"))
     | Option.none => Except.error (PyErr.valueError "validation error: field required: _metadata"))
  | _ => Except.error (PyErr.valueError "validation error: CacheEntry expects a mapping")

/-- The old-format conversion in BaseCache.deserialize: a decoded mapping
with a metadata key and no _metadata key is rebuilt as the two-field new
format (indexing raises KeyError when the data key is absent). -/
def convert_old_format : Val → Except PyErr Val
| Val.dict dkvs =>
  (match List.lookup "metadata" dkvs, List.lookup "_metadata" dkvs with
   | Option.some m, Option.none =>
     (match List.lookup "data" dkvs with
      | Option.some d => Except.ok (Val.dict [("_metadata", m), ("data", d)])
      | Option.none => Except.error (PyErr.keyError "data"))
   | _, _ => Except.ok (Val.dict dkvs))
| v => Except.ok v

/-- The data_type-driven part of BaseCache._deserialize_data: a falsy
data_type (None or the empty string) returns the data unchanged; a dotless
name makes rsplit's two-way unpacking raise ValueError; an unimportable name
raises ImportError; a non-pydantic class falls through the issubclass guard
and returns the data unchanged; a pydantic class is instantiated with
class_(**data), which needs data to be a mapping and raises TypeError on an
already-reconstructed model instance (or any other non-mapping). -/
def deserialize_data_by_type (env : DecodeEnv) (data : Val) : Option String → Except PyErr Val
| Option.none => Except.ok data
| Option.some dty =>
  if dty = "" then Except.ok data
  else if !(dty.data.contains '.') then Except.error (PyErr.valueError "not enough values to unpack")
  else match env.resolve dty with
  | Resolution.unresolvable => Except.error (PyErr.importError dty)
  | Resolution.nonModelClass => Except.ok data
  | Resolution.modelClass =>
    match data with
    | Val.dict fields => Except.ok (Val.model dty fields)
    | _ => Except.error (PyErr.typeError "argument after ** must be a mapping")

/-- BaseCache._deserialize_data: first the registered-envelope branch (only
when the decoded data is still a mapping carrying the __pydantic_model__
marker and the name has a registered deserializer), then the data_type
branch above.  A non-string marker value makes the registry lookup fail in
the same ways the Python dict.get does (unhashable values raise TypeError;
hashable non-strings are simply not registered and fall through). -/
def deserialize_data (env : DecodeEnv) (data : Val) (dty : Option String) : Except PyErr Val :=
  match data with
  | Val.dict dkvs =>
    (match List.lookup "__pydantic_model__" dkvs with
     | Option.some (Val.str name) =>
       if env.registered name then
         (match List.lookup "__data__" dkvs with
          | Option.some d => model_validate_payload name d
          | Option.none => Except.error (PyErr.keyError "__data__"))
       else deserialize_data_by_type env (Val.dict dkvs) dty
     | Option.some (Val.list _) => Except.error (PyErr.typeError "unhashable type")
     | Option.some (Val.dict _) => Except.error (PyErr.typeError "unhashable type")
     | Option.some (Val.model _ _) => Except.error (PyErr.typeError "unhashable type")
     | Option.some _ => deserialize_data_by_type env (Val.dict dkvs) dty
     | Option.none => deserialize_data_by_type env (Val.dict dkvs) dty)
  | _ => deserialize_data_by_type env data dty

/-- BaseCache.deserialize on a string input, at the document level: decode
with the object hook, convert the old format, validate the entry, then
reconstruct the payload from the declared data type. -/
def deserialize (env : DecodeEnv) (doc : JVal) : Except PyErr CacheEntry := do
  let decoded ← custom_decoder env doc
  let converted ← convert_old_format decoded
  let ce ← cache_entry_validate converted
  let d2 ← deserialize_data env ce.data ce.metadata.data_type
  Except.ok { metadata := ce.metadata, data := d2 }

/-! ### Round trip of serialize and deserialize (claim C1). -/

mutual
/-- Payload values on which the JSON encoding is lossless: the JSON-native
scalars, and lists and string-keyed dicts of such, where no dict uses one of
the decoder's reserved marker keys.  Datetimes (rendered to unmarked
strings), tuples (rendered to JSON arrays) and model instances are excluded:
see the C1 counterexample. -/
def json_native : Val → Bool
| Val.none => true
| Val.bool _ => true
| Val.int _ => true
| Val.str _ => true
| Val.dt _ => false
| Val.tuple _ => false
| Val.model _ _ => false
| Val.list xs => json_native_list xs
| Val.dict kvs =>
  (List.lookup "__model_metadata__" kvs).isNone &&
  (List.lookup "__datetime__" kvs).isNone &&
  (List.lookup "__pydantic_model__" kvs).isNone &&
  json_native_pairs kvs

def json_native_list : List Val → Bool
| [] => true
| v :: vs => json_native v && json_native_list vs

def json_native_pairs : List (String × Val) → Bool
| [] => true
| (_, v) :: kvs => json_native v && json_native_pairs kvs
end

theorem lookup_eq_none_of_isNone {α : Type} {kvs : List (String × α)} {k : String}
    (h : (List.lookup k kvs).isNone = true) : List.lookup k kvs = Option.none :=
  Option.isNone_iff_eq_none.mp h

mutual
/-- Decoding inverts encoding on JSON-native payload values (the heart of
the amended round-trip property). -/
theorem custom_decoder_encoder (env : DecodeEnv) :
    ∀ (v : Val), json_native v = true → custom_decoder env (custom_encoder v) = Except.ok v
| Val.none, _ => rfl
| Val.bool _, _ => rfl
| Val.int _, _ => rfl
| Val.str _, _ => rfl
| Val.dt _, h => by rw [json_native] at h; exact absurd h (by simp)
| Val.tuple _, h => by rw [json_native] at h; exact absurd h (by simp)
| Val.model _ _, h => by rw [json_native] at h; exact absurd h (by simp)
| Val.list xs, h => by
  rw [json_native] at h
  have hx := custom_decoder_encoder_list env xs h
  simp [custom_encoder, custom_decoder, hx, Except.map]
| Val.dict kvs, h => by
  rw [json_native] at h
  simp only [Bool.and_eq_true] at h
  obtain ⟨⟨⟨h1, h2⟩, h3⟩, h4⟩ := h
  have hp := custom_decoder_encoder_pairs env kvs h4
  simp [custom_encoder, custom_decoder, hp, decode_object, Except.bind, bind,
    lookup_eq_none_of_isNone h1, lookup_eq_none_of_isNone h2,
    lookup_eq_none_of_isNone h3]

theorem custom_decoder_encoder_list (env : DecodeEnv) :
    ∀ (xs : List Val), json_native_list xs = true →
      custom_decoder_list env (custom_encoder_list xs) = Except.ok xs
| [], _ => rfl
| v :: vs, h => by
  rw [json_native_list] at h
  simp only [Bool.and_eq_true] at h
  have hv := custom_decoder_encoder env v h.1
  have hvs := custom_decoder_encoder_list env vs h.2
  simp [custom_encoder_list, custom_decoder_list, hv, hvs, Except.bind, bind]

theorem custom_decoder_encoder_pairs (env : DecodeEnv) :
    ∀ (kvs : List (String × Val)), json_native_pairs kvs = true →
      custom_decoder_pairs env (custom_encoder_pairs kvs) = Except.ok kvs
| [], _ => rfl
| (k, v) :: kvs, h => by
  rw [json_native_pairs] at h
  simp only [Bool.and_eq_true] at h
  have hv := custom_decoder_encoder env v h.1
  have hkvs := custom_decoder_encoder_pairs env kvs h.2
  simp [custom_encoder_pairs, custom_decoder_pairs, hv, hkvs, Except.bind, bind]
end

/-- The decoded form of a dumped nullable instant: null stays None, a
rendered datetime becomes the plain rendered string (no marker survives
encoding). -/
def decoded_opt_time : Option Int → Val
| Option.none => Val.none
| Option.some t => Val.str (serialize_datetime t)

def decoded_opt_str : Option String → Val
| Option.none => Val.none
| Option.some s => Val.str s

/-- The value custom_decoder produces from a dumped metadata record. -/
def metadata_decoded (md : ModelMetadata) : Val :=
  Val.dict [
    ("creation_timestamp", decoded_opt_time md.creation_timestamp),
    ("last_update_timestamp", decoded_opt_time md.last_update_timestamp),
    ("expires_at", decoded_opt_time md.expires_at),
    ("args", Val.list md.args),
    ("kwargs", Val.dict md.kwargs),
    ("from_cache", Val.bool md.from_cache),
    ("data_type", decoded_opt_str md.data_type),
    ("is_flat_data", Val.bool md.is_flat_data)]

theorem decode_dump_opt_time (env : DecodeEnv) (o : Option Int) :
    custom_decoder env (dump_opt_time o) = Except.ok (decoded_opt_time o) := by
  cases o <;> rfl

theorem decode_metadata_dump (env : DecodeEnv) (md : ModelMetadata)
    (hargs : json_native_list md.args = true)
    (hkw : json_native (Val.dict md.kwargs) = true) :
    custom_decoder env (model_metadata_dump md) = Except.ok (metadata_decoded md) := by
  rw [json_native] at hkw
  simp only [Bool.and_eq_true] at hkw
  obtain ⟨⟨⟨h1, h2⟩, h3⟩, h4⟩ := hkw
  have hargsd := custom_decoder_encoder_list env md.args hargs
  have hkwd := custom_decoder_encoder_pairs env md.kwargs h4
  simp [model_metadata_dump, custom_decoder, custom_decoder_pairs, custom_decoder_list,
    decode_dump_opt_time, metadata_decoded, hargsd, hkwd, Except.bind, bind, Except.map,
    decode_object, lookup_eq_none_of_isNone h1, lookup_eq_none_of_isNone h2,
    lookup_eq_none_of_isNone h3, List.lookup]
  cases md.data_type <;> rfl

theorem validate_metadata_decoded (md : ModelMetadata) :
    model_metadata_validate (metadata_decoded md) = Except.ok md := by
  obtain ⟨ct, lut, ea, args, kw, fc, dt, ifd⟩ := md
  cases ct <;> cases lut <;> cases ea <;> cases dt <;>
    simp [metadata_decoded, model_metadata_validate, decoded_opt_time, decoded_opt_str,
      datetime_roundtrip, List.lookup, validate_time_field, Except.bind, bind]

/-- The declared data types under which _deserialize_data returns the
decoded payload unchanged: no declared type, the empty string (falsy in the
source's truthiness test), or a dotted name that resolves to a class that is
not a pydantic model (in particular every builtins.* container and scalar
type, and datetime.datetime). -/
def data_type_ok (env : DecodeEnv) : Option String → Bool
| Option.none => true
| Option.some dty =>
  dty == "" || (dty.data.contains '.' && (env.resolve dty == Resolution.nonModelClass))

theorem deserialize_data_native (env : DecodeEnv) (v : Val) (dty : Option String)
    (hv : json_native v = true) :
    deserialize_data env v dty = deserialize_data_by_type env v dty := by
  cases v with
  | dict kvs =>
    rw [json_native] at hv
    simp only [Bool.and_eq_true] at hv
    simp [deserialize_data, lookup_eq_none_of_isNone hv.1.2]
  | _ => simp [deserialize_data]

theorem deserialize_data_by_type_ok (env : DecodeEnv) (v : Val) (dty : Option String)
    (h : data_type_ok env dty = true) :
    deserialize_data_by_type env v dty = Except.ok v := by
  cases dty with
  | none => rfl
  | some s =>
    rw [data_type_ok] at h
    simp only [Bool.or_eq_true, Bool.and_eq_true, beq_iff_eq] at h
    by_cases he : s = ""
    · simp [deserialize_data_by_type, he]
    · rcases h with h | ⟨hc, hr⟩
      · exact absurd h he
      · simp [deserialize_data_by_type, he, hc, hr]
        simpa using hc

/-- C1 amended: deserializing the serialization of a cache entry returns the
entry unchanged provided the payload and the recorded args/kwargs are
JSON-native values (no datetime, tuple or model payloads) and the declared
data type is absent, falsy, or resolves to a non-pydantic class.  The
excluded payload kinds genuinely fail to round-trip: see
c1_roundtrip_counterexample. -/
theorem c1_roundtrip_amended (env : DecodeEnv) (e : CacheEntry)
    (hdata : json_native e.data = true)
    (hargs : json_native_list e.metadata.args = true)
    (hkw : json_native (Val.dict e.metadata.kwargs) = true)
    (hdt : data_type_ok env e.metadata.data_type = true) :
    deserialize env (serialize e) = Except.ok e := by
  have hd := custom_decoder_encoder env e.data hdata
  have hm := decode_metadata_dump env e.metadata hargs hkw
  have hpairs : custom_decoder_pairs env
      [("metadata", model_metadata_dump e.metadata), ("data", custom_encoder e.data)] =
      Except.ok [("metadata", metadata_decoded e.metadata), ("data", e.data)] := by
    simp only [custom_decoder_pairs, hm, hd, Except.bind, bind]
  have hdec : custom_decoder env (serialize e) =
      Except.ok (Val.dict [("metadata", metadata_decoded e.metadata), ("data", e.data)]) := by
    rw [serialize, custom_decoder, hpairs]
    simp [Except.bind, bind, decode_object, List.lookup]
  have hconv : convert_old_format
      (Val.dict [("metadata", metadata_decoded e.metadata), ("data", e.data)]) =
      Except.ok (Val.dict [("_metadata", metadata_decoded e.metadata), ("data", e.data)]) := by
    simp [convert_old_format, List.lookup]
  have hval : cache_entry_validate
      (Val.dict [("_metadata", metadata_decoded e.metadata), ("data", e.data)]) =
      Except.ok { metadata := e.metadata, data := e.data } := by
    simp [cache_entry_validate, List.lookup, validate_metadata_decoded, Except.bind, bind]
  simp only [deserialize, hdec, hconv, hval, Except.bind, bind,
    deserialize_data_native env e.data e.metadata.data_type hdata,
    deserialize_data_by_type_ok env e.data e.metadata.data_type hdt]

/-- A concrete decoding context for the C1 instances: one registered model
class, with builtins and datetime resolving to non-model classes, exactly as
in the running process. -/
def c1_env : DecodeEnv :=
  { registered := fun n => n == "tests.SampleData",
    resolve := fun n =>
      if n == "tests.SampleData" then Resolution.modelClass
      else if n == "builtins.tuple" || n == "datetime.datetime" || n == "builtins.dict"
        then Resolution.nonModelClass
      else Resolution.unresolvable }

/-- An entry whose payload is a datetime (as the call wrapper would record
it: data_type is the qualified name of the payload's type). -/
def c1_entry_dt : CacheEntry :=
  { metadata := { creation_timestamp := Option.some 0,
                  data_type := Option.some "datetime.datetime" },
    data := Val.dt 0 }

/-- An entry whose payload is the tuple (1,). -/
def c1_entry_tuple : CacheEntry :=
  { metadata := { creation_timestamp := Option.some 0,
                  data_type := Option.some "builtins.tuple" },
    data := Val.tuple [Val.int 1] }

/-- An entry whose payload is a registered pydantic model instance. -/
def c1_entry_model : CacheEntry :=
  { metadata := { creation_timestamp := Option.some 0,
                  data_type := Option.some "tests.SampleData" },
    data := Val.model "tests.SampleData" [("value", Val.str "x")] }

/-- C1 counterexample: the round trip fails on the very payload kinds the
claim names.  A datetime payload deserializes to its rendered string (the
encoder leaves no marker and datetime.datetime is not a pydantic model), a
tuple payload deserializes to a list (JSON has no tuples), and a registered
pydantic model payload makes deserialize raise TypeError (the decoded model
instance is fed to class_(**data), which requires a mapping). -/
theorem c1_roundtrip_counterexample :
    deserialize c1_env (serialize c1_entry_dt) ≠ Except.ok c1_entry_dt ∧
    deserialize c1_env (serialize c1_entry_tuple) ≠ Except.ok c1_entry_tuple ∧
    deserialize c1_env (serialize c1_entry_model) ≠ Except.ok c1_entry_model := by
  refine ⟨?_, ?_, ?_⟩
  · intro h
    have h2 : Except.ok { metadata := c1_entry_dt.metadata, data := Val.str "0" } =
        Except.ok c1_entry_dt := h
    simp [c1_entry_dt] at h2
  · intro h
    have h2 : Except.ok { metadata := c1_entry_tuple.metadata, data := Val.list [Val.int 1] } =
        Except.ok c1_entry_tuple := h
    simp [c1_entry_tuple] at h2
  · intro h
    have h2 : Except.error (PyErr.typeError "argument after ** must be a mapping") =
        Except.ok c1_entry_model := h
    simp at h2

/-- A JSON-native entry: a string-keyed dict payload with native recorded
args and kwargs and a builtins data type. -/
def c1_native_entry : CacheEntry :=
  { metadata := { creation_timestamp := Option.some 5,
                  last_update_timestamp := Option.some 6,
                  expires_at := Option.none,
                  args := [Val.int 2, Val.str "a"],
                  kwargs := [("k", Val.str "v")],
                  from_cache := false,
                  data_type := Option.some "builtins.dict",
                  is_flat_data := false },
    data := Val.dict [("a", Val.int 1), ("b", Val.list [Val.none, Val.bool true])] }

/-- Witness for c1_roundtrip_amended at a concrete JSON-native entry. -/
theorem c1_roundtrip_amended_witness :
    deserialize c1_env (serialize c1_native_entry) = Except.ok c1_native_entry :=
  c1_roundtrip_amended c1_env c1_native_entry rfl rfl rfl rfl

/-! ### Cache key generation (pi_cache/base_cache.py: make_hashable,
BaseCache._generate_key_content, BaseCache._generate_cache_key; claim C4).

Call arguments live in a separate value universe from payloads because key
generation is identity-sensitive: an argument that is neither a primitive
nor a container canonicalizes through Python's id().  PyObj.inst covers
every such object (class instances, datetimes, models alike) by its
qualified class name and identity. -/

/-- A Python value in argument position for key generation. -/
inductive PyObj where
| none
| bool (b : Bool)
| int (n : Int)
| str (s : String)
| list (xs : List PyObj)
| tuple (xs : List PyObj)
| dict (kvs : List (String × PyObj))
| cls (qualname : String)
| inst (clsname : String) (objId : Nat)

/-- The canonical hashable representation make_hashable produces.  The
source renders the two instance forms as the strings
"qualified-class-name#id" and "qualified-class-name"; the structured
constructors here make exactly the same distinctions (qualified names never
contain a hash sign). -/
inductive HashableRep where
| none
| bool (b : Bool)
| int (n : Int)
| str (s : String)
| tup (xs : List HashableRep)
| qual (s : String)
| instId (clsname : String) (objId : Nat)
| instCls (clsname : String)

/-- Insertion of a key-value pair into a key-sorted list (Python's sorted on
(key, value) tuples compares keys first, and dict keys are unique, so key
order decides). -/
def insert_by_key (p : String × HashableRep) : List (String × HashableRep) → List (String × HashableRep)
| [] => [p]
| q :: qs => if p.1 ≤ q.1 then p :: q :: qs else q :: insert_by_key p qs

def sort_by_key : List (String × HashableRep) → List (String × HashableRep)
| [] => []
| p :: ps => insert_by_key p (sort_by_key ps)

mutual
/-- make_hashable from pi_cache/base_cache.py: primitives pass through,
sequences become tuples of canonicalized elements, mappings become sorted
(key, value) tuples, class objects become their qualified name, and any
other instance becomes its class name with the object id appended when
include_id is set (id-free otherwise). -/
def make_hashable : PyObj → Bool → HashableRep
| PyObj.none, _ => HashableRep.none
| PyObj.bool b, _ => HashableRep.bool b
| PyObj.int n, _ => HashableRep.int n
| PyObj.str s, _ => HashableRep.str s
| PyObj.list xs, include_id => HashableRep.tup (make_hashable_list xs include_id)
| PyObj.tuple xs, include_id => HashableRep.tup (make_hashable_list xs include_id)
| PyObj.dict kvs, include_id =>
  HashableRep.tup ((sort_by_key (make_hashable_pairs kvs include_id)).map
    (fun kv => HashableRep.tup [HashableRep.str kv.1, kv.2]))
| PyObj.cls q, _ => HashableRep.qual q
| PyObj.inst c i, include_id =>
  if include_id then HashableRep.instId c i else HashableRep.instCls c

def make_hashable_list : List PyObj → Bool → List HashableRep
| [], _ => []
| x :: xs, include_id => make_hashable x include_id :: make_hashable_list xs include_id

def make_hashable_pairs : List (String × PyObj) → Bool → List (String × HashableRep)
| [], _ => []
| (k, v) :: kvs, include_id => (k, make_hashable v include_id) :: make_hashable_pairs kvs include_id
end

/-- The statically inspectable part of a Python function: its qualified name
and its declared positional parameter names (inspect.getfullargspec). -/
structure PyFunc where
  qualname : String
  arg_names : List String

/-- FuncCall from pi_cache/base_cache.py, restricted to the fields key
generation reads (cache_instance and settings are carried separately). -/
structure FuncCall where
  func : PyFunc
  args : List PyObj
  kwargs : List (String × PyObj) := []
  key_parameters : Option (List String) := Option.none
  ignore_self : Bool := false
  bound_entity : Option PyObj := Option.none
  is_instance : Bool := false

/-- The key-content record {func_name, args, kwargs} built by
BaseCache._generate_key_content.  The source stringifies the args tuple and
kwargs dict with str(); the structured record preserves exactly the same
distinctions, and _generate_cache_key below is a function of this record. -/
structure KeyContent where
  func_name : String
  args : List HashableRep
  kwargs : List (String × HashableRep)

/-- BaseCache._generate_key_content.  start_index skips the bound entity
when ignore_self is set; with a (non-empty, since Python tests list
truthiness) key_parameters list, only arguments whose declared names appear
in the subset are kept, positionally when the index falls inside the
supplied positional arguments and from kwargs otherwise; with no
key_parameters, every remaining argument is canonicalized, identity
sensitivity being the negation of ignore_self. -/
def generate_key_content (fc : FuncCall) : KeyContent :=
  let start_index := if fc.bound_entity.isSome && fc.ignore_self then 1 else 0
  let include_id := !fc.ignore_self
  match fc.key_parameters with
  | Option.some kp =>
    if kp.isEmpty then
      { func_name := fc.func.qualname,
        args := (fc.args.drop start_index).map (fun a => make_hashable a include_id),
        kwargs := fc.kwargs.map (fun kv => (kv.1, make_hashable kv.2 include_id)) }
    else
      let arg_names := fc.func.arg_names.drop start_index
      let nargs := fc.args.length - start_index
      { func_name := fc.func.qualname,
        args := arg_names.enum.filterMap (fun p =>
          if kp.contains p.2 && decide (p.1 < nargs) then
            (fc.args.get? (p.1 + start_index)).map (fun a => make_hashable a include_id)
          else Option.none),
        kwargs := arg_names.enum.filterMap (fun p =>
          if kp.contains p.2 && !(decide (p.1 < nargs)) then
            (List.lookup p.2 fc.kwargs).map (fun a => (p.2, make_hashable a include_id))
          else Option.none) }
  | Option.none =>
    { func_name := fc.func.qualname,
      args := (fc.args.drop start_index).map (fun a => make_hashable a include_id),
      kwargs := fc.kwargs.map (fun kv => (kv.1, make_hashable kv.2 include_id)) }

/-- BaseCache._generate_cache_key: the function's qualified name joined to a
digest of the key content.  The digest (str, then sha256, then the first 10
hex characters) is a fixed function of the content, abstracted as the
parameter h: equal contents give equal keys for every choice of h, and
distinct contents give distinct keys up to truncated-hash collisions. -/
def generate_cache_key (h : KeyContent → String) (fc : FuncCall) : String :=
  (generate_key_content fc).func_name ++ "_" ++ h (generate_key_content fc)

/-- C4: for a method call with a bound entity and no key_parameters subset,
ignore_self=true makes the key content (hence the cache key, for any
digest) independent of which instance the method is called on, while
ignore_self=false (the default) keys the two calls differently because the
bound instance canonicalizes identity-sensitively to its class name plus
object id. -/
theorem c4_ignore_self_keys (f : PyFunc) (clsname : String) (i1 i2 : Nat)
    (rest : List PyObj) (kw : List (String × PyObj)) (hid : i1 ≠ i2) :
    (generate_key_content
       { func := f, args := PyObj.inst clsname i1 :: rest, kwargs := kw,
         ignore_self := true, bound_entity := Option.some (PyObj.inst clsname i1),
         is_instance := true } =
     generate_key_content
       { func := f, args := PyObj.inst clsname i2 :: rest, kwargs := kw,
         ignore_self := true, bound_entity := Option.some (PyObj.inst clsname i2),
         is_instance := true } ∧
     ∀ h : KeyContent → String,
       generate_cache_key h
         { func := f, args := PyObj.inst clsname i1 :: rest, kwargs := kw,
           ignore_self := true, bound_entity := Option.some (PyObj.inst clsname i1),
           is_instance := true } =
       generate_cache_key h
         { func := f, args := PyObj.inst clsname i2 :: rest, kwargs := kw,
           ignore_self := true, bound_entity := Option.some (PyObj.inst clsname i2),
           is_instance := true }) ∧
    generate_key_content
      { func := f, args := PyObj.inst clsname i1 :: rest, kwargs := kw,
        ignore_self := false, bound_entity := Option.some (PyObj.inst clsname i1),
        is_instance := true } ≠
    generate_key_content
      { func := f, args := PyObj.inst clsname i2 :: rest, kwargs := kw,
        ignore_self := false, bound_entity := Option.some (PyObj.inst clsname i2),
        is_instance := true } := by
  refine ⟨⟨rfl, fun h => rfl⟩, ?_⟩
  intro h2
  simp only [generate_key_content, KeyContent.mk.injEq, List.drop, List.map,
    make_hashable, Bool.not_false, if_pos, List.cons.injEq] at h2
  exact hid (HashableRep.instId.inj h2.2.1.1).2

/-- Witness for c4_ignore_self_keys: a concrete method C.meth called on two
instances of m.C with identities 1 and 2 and the same remaining argument. -/
theorem c4_ignore_self_keys_witness :
    (generate_key_content
       { func := { qualname := "C.meth", arg_names := ["self", "x"] },
         args := [PyObj.inst "m.C" 1, PyObj.int 5],
         ignore_self := true, bound_entity := Option.some (PyObj.inst "m.C" 1),
         is_instance := true } =
     generate_key_content
       { func := { qualname := "C.meth", arg_names := ["self", "x"] },
         args := [PyObj.inst "m.C" 2, PyObj.int 5],
         ignore_self := true, bound_entity := Option.some (PyObj.inst "m.C" 2),
         is_instance := true }) ∧
    generate_key_content
      { func := { qualname := "C.meth", arg_names := ["self", "x"] },
        args := [PyObj.inst "m.C" 1, PyObj.int 5],
        ignore_self := false, bound_entity := Option.some (PyObj.inst "m.C" 1),
        is_instance := true } ≠
    generate_key_content
      { func := { qualname := "C.meth", arg_names := ["self", "x"] },
        args := [PyObj.inst "m.C" 2, PyObj.int 5],
        ignore_self := false, bound_entity := Option.some (PyObj.inst "m.C" 2),
        is_instance := true } := by
  have h := c4_ignore_self_keys { qualname := "C.meth", arg_names := ["self", "x"] }
    "m.C" 1 2 [PyObj.int 5] [] (by norm_num)
  exact ⟨h.1.1, h.2⟩

/-! ### The call wrapper (pi_cache/base_cache.py: cache_decorator.wrapper,
_return_obj; claims C5, C6, C10).

The wrapper is modelled as a pure step: it receives what the backend's get
returned for this call's key (stored), the current instant, and the wrapped
function's behavior on this invocation, and produces the call's result
together with what was persisted.  The recorded metadata arguments are
passed in the payload-value view (margs/mkwargs), which is how they end up
inside the stored metadata. -/

def chars_begin_with : List Char → List Char → Bool
| [], _ => true
| _ :: _, [] => false
| p :: ps, c :: cs => p == c && chars_begin_with ps cs

def chars_has_sub (pat : List Char) : List Char → Bool
| [] => pat.isEmpty
| c :: cs => chars_begin_with pat (c :: cs) || chars_has_sub pat cs

/-- Python's substring containment test (the source's "builtins" in
data_type). -/
def str_has_sub (pat s : String) : Bool := chars_has_sub pat.data s.data

/-- The value a cache call hands back: the payload, plus the metadata when
_return_obj attaches it (the source inserts it under the _metadata key of a
mapping payload or sets a _metadata attribute on any other object; both are
modelled as attached_meta, since a metadata record cannot sit inside Val). -/
structure Returned where
  value : Val
  attached_meta : Option ModelMetadata

/-- _return_obj from pi_cache/base_cache.py: with attachment disabled return
the raw payload; a payload whose declared type mentions builtins returns raw
unless return_metadata_on_primitives is set (and even then only a mapping
payload gets the metadata); every other payload gets the metadata
attached. -/
def return_obj (cache_entry : CacheEntry) (settings : CacheSettings) : Returned :=
  if !settings.return_metadata_as_member then
    { value := cache_entry.data, attached_meta := Option.none }
  else
    let dty_builtins := match cache_entry.metadata.data_type with
      | Option.some s => !(s == "") && str_has_sub "builtins" s
      | Option.none => false
    if dty_builtins then
      if settings.return_metadata_on_primitives then
        match cache_entry.data with
        | Val.dict _ => { value := cache_entry.data, attached_meta := Option.some cache_entry.metadata }
        | _ => { value := cache_entry.data, attached_meta := Option.none }
      else { value := cache_entry.data, attached_meta := Option.none }
    else { value := cache_entry.data, attached_meta := Option.some cache_entry.metadata }

/-- Modelled from the spec: CacheMissError carries the call descriptor (the
error taxonomy and its payload are spec section 7; the class itself lives in
the absent pi_cache/models.py).  funcExc is an exception escaping the
wrapped function; pyExc is an internal error such as an expiration parse
failure. -/
inductive Raised where
| cacheMiss (func_call : FuncCall) (msg : String)
| funcExc (name : String)
| pyExc (e : PyErr)

/-- What the wrapped function does on this invocation: return a value, raise
an exception carrying a fallback value in its save_var attribute, or raise a
plain exception. -/
inductive FuncBehavior where
| returns (v : Val)
| raisesWithSave (save_var : Val) (name : String)
| raises (name : String)

/-- The observable outcome of one wrapped call: the result (or the raised
error), whether the wrapped function ran, and the entry persisted to the
backend (if any). -/
structure WrapperOutcome where
  result : Except Raised Returned
  invoked_func : Bool
  set_entry : Option CacheEntry

/-- The expires_at computed by the wrapper's metadata construction: a string
expiration is parsed relative to now; a numeric one is added to now, except
that 0 is falsy in the source's truthiness test and records no expiry at
all (claim C10); no expiration records none. -/
def wrapper_expires_at (settings : CacheSettings) (current_time : Int) :
    Except PyErr (Option Int) :=
  match settings.expiration with
  | Option.some (ExpirationValue.txt s) =>
    (parse_date_string s current_time).map Option.some
  | Option.some (ExpirationValue.num d) =>
    Except.ok (if d == 0 then Option.none else Option.some (current_time + d))
  | Option.none => Except.ok Option.none

/-- The metadata record the wrapper builds before persisting (fresh
creation and last-update instants, the bound-entity-filtered call arguments,
from_cache false, and the qualified type name of the result). -/
def wrapper_metadata (settings : CacheSettings) (now : Int) (margs : List Val)
    (mkwargs : List (String × Val)) (result_type : String) (ea : Option Int) : ModelMetadata :=
  { creation_timestamp := Option.some now, last_update_timestamp := Option.some now,
    expires_at := ea, args := margs, kwargs := mkwargs, from_cache := false,
    data_type := Option.some result_type, is_flat_data := settings.is_flat_data }

/-- The miss continuation of cache_decorator.wrapper: fail fast in
cache-only mode; otherwise run the function, catch only exceptions carrying
a save_var fallback, build fresh metadata, persist, and finally either
re-raise the caught exception (after persisting) or shape the return
value. -/
def cache_wrapper_miss (settings : CacheSettings) (fc : FuncCall) (margs : List Val)
    (mkwargs : List (String × Val)) (now : Int) (fb : FuncBehavior) : WrapperOutcome :=
  if settings.cache_only then
    { result := Except.error (Raised.cacheMiss fc ("Cache miss for " ++ fc.func.qualname)),
      invoked_func := false, set_entry := Option.none }
  else
    match fb with
    | FuncBehavior.raises name =>
      { result := Except.error (Raised.funcExc name), invoked_func := true,
        set_entry := Option.none }
    | FuncBehavior.returns v =>
      (match wrapper_expires_at settings now with
       | Except.error e =>
         { result := Except.error (Raised.pyExc e), invoked_func := true,
           set_entry := Option.none }
       | Except.ok ea =>
         let entry : CacheEntry :=
           { metadata := wrapper_metadata settings now margs mkwargs (qualified_name v) ea,
             data := v }
         { result := Except.ok (return_obj entry settings), invoked_func := true,
           set_entry := Option.some entry })
    | FuncBehavior.raisesWithSave v name =>
      (match wrapper_expires_at settings now with
       | Except.error e =>
         { result := Except.error (Raised.pyExc e), invoked_func := true,
           set_entry := Option.none }
       | Except.ok ea =>
         let entry : CacheEntry :=
           { metadata := wrapper_metadata settings now margs mkwargs (qualified_name v) ea,
             data := v }
         { result := Except.error (Raised.funcExc name), invoked_func := true,
           set_entry := Option.some entry })

/-- cache_decorator.wrapper from pi_cache/base_cache.py as one pure step: a
present and valid stored entry is returned with its from_cache flag flipped
(the backend-aliasing consequences of that in-place flip are the subject of
the backend theorems); everything else is a miss. -/
def cache_wrapper (settings : CacheSettings) (fc : FuncCall) (margs : List Val)
    (mkwargs : List (String × Val)) (stored : Option CacheEntry) (now : Int)
    (fb : FuncBehavior) : WrapperOutcome :=
  match stored with
  | Option.some cache_entry =>
    (match is_cache_valid cache_entry.metadata now settings with
     | Except.error e =>
       { result := Except.error (Raised.pyExc e), invoked_func := false,
         set_entry := Option.none }
     | Except.ok true =>
       let hit : CacheEntry :=
         { cache_entry with metadata := { cache_entry.metadata with from_cache := true } }
       { result := Except.ok (return_obj hit settings), invoked_func := false,
         set_entry := Option.none }
     | Except.ok false => cache_wrapper_miss settings fc margs mkwargs now fb)
  | Option.none => cache_wrapper_miss settings fc margs mkwargs now fb

/-- A concrete call descriptor for the wrapper witnesses. -/
def sample_func_call : FuncCall :=
  { func := { qualname := "f", arg_names := ["x"] }, args := [PyObj.int 1] }

/-- C5: in cache-only mode, when the backend holds no valid entry for the
call (absent, or present but expired), the wrapper raises CacheMissError
carrying the call descriptor, never invokes the wrapped function, and
persists nothing. -/
theorem c5_cache_only_miss (settings : CacheSettings) (fc : FuncCall) (margs : List Val)
    (mkwargs : List (String × Val)) (stored : Option CacheEntry) (now : Int)
    (fb : FuncBehavior)
    (hco : settings.cache_only = true)
    (hmiss : stored = Option.none ∨
      ∃ e, stored = Option.some e ∧ is_cache_valid e.metadata now settings = Except.ok false) :
    cache_wrapper settings fc margs mkwargs stored now fb =
      { result := Except.error (Raised.cacheMiss fc ("Cache miss for " ++ fc.func.qualname)),
        invoked_func := false, set_entry := Option.none } := by
  rcases hmiss with h | ⟨e, he, hv⟩
  · subst h
    simp [cache_wrapper, cache_wrapper_miss, hco]
  · subst he
    simp [cache_wrapper, hv, cache_wrapper_miss, hco]

/-- Witness for c5_cache_only_miss: cache-only settings, an empty backend,
and a function that would return 1 were it ever invoked. -/
theorem c5_cache_only_miss_witness :
    cache_wrapper { cache_only := true } sample_func_call [] [] Option.none 0
      (FuncBehavior.returns (Val.int 1)) =
      { result := Except.error (Raised.cacheMiss sample_func_call
          ("Cache miss for " ++ sample_func_call.func.qualname)),
        invoked_func := false, set_entry := Option.none } :=
  c5_cache_only_miss { cache_only := true } sample_func_call [] [] Option.none 0
    (FuncBehavior.returns (Val.int 1)) rfl (Or.inl rfl)

/-- C6: on a miss, an exception carrying a save_var fallback makes the
wrapper persist an entry whose payload is the fallback value and re-raise
the original exception after persisting, while an exception without a
fallback propagates with nothing persisted. -/
theorem c6_fallback_persist (settings : CacheSettings) (fc : FuncCall) (margs : List Val)
    (mkwargs : List (String × Val)) (now : Int) (v : Val) (name : String) (ea : Option Int)
    (hco : settings.cache_only = false)
    (hea : wrapper_expires_at settings now = Except.ok ea) :
    cache_wrapper settings fc margs mkwargs Option.none now
        (FuncBehavior.raisesWithSave v name) =
      { result := Except.error (Raised.funcExc name), invoked_func := true,
        set_entry := Option.some
          { metadata := wrapper_metadata settings now margs mkwargs (qualified_name v) ea,
            data := v } } ∧
    cache_wrapper settings fc margs mkwargs Option.none now (FuncBehavior.raises name) =
      { result := Except.error (Raised.funcExc name), invoked_func := true,
        set_entry := Option.none } := by
  constructor <;> simp [cache_wrapper, cache_wrapper_miss, hco, hea]

/-- Witness for c6_fallback_persist: default settings (no expiration), an
empty backend, fallback value 7, exception named Boom. -/
theorem c6_fallback_persist_witness :
    cache_wrapper {} sample_func_call [Val.int 1] [] Option.none 0
        (FuncBehavior.raisesWithSave (Val.int 7) "Boom") =
      { result := Except.error (Raised.funcExc "Boom"), invoked_func := true,
        set_entry := Option.some
          { metadata := wrapper_metadata {} 0 [Val.int 1] []
              (qualified_name (Val.int 7)) Option.none,
            data := Val.int 7 } } ∧
    cache_wrapper {} sample_func_call [Val.int 1] [] Option.none 0
        (FuncBehavior.raises "Boom") =
      { result := Except.error (Raised.funcExc "Boom"), invoked_func := true,
        set_entry := Option.none } :=
  c6_fallback_persist {} sample_func_call [Val.int 1] [] 0 (Val.int 7) "Boom"
    Option.none rfl rfl

/-- C10: with a numeric expiration of exactly 0 seconds, the wrapper stores
an entry whose metadata records expires_at = null (0 is falsy in the
truthiness test guarding the expiry computation), while is_cache_valid
under time_check=CREATION treats 0 as a configured duration and judges that
same metadata expired at every instant from its creation onward. -/
theorem c10_zero_expiration (settings : CacheSettings) (fc : FuncCall) (margs : List Val)
    (mkwargs : List (String × Val)) (now : Int) (v : Val)
    (hexp : settings.expiration = Option.some (ExpirationValue.num 0))
    (htc : settings.time_check = TimeCheck.creation)
    (hco : settings.cache_only = false) :
    (cache_wrapper settings fc margs mkwargs Option.none now (FuncBehavior.returns v)).set_entry =
      Option.some
        { metadata := wrapper_metadata settings now margs mkwargs (qualified_name v) Option.none,
          data := v } ∧
    (wrapper_metadata settings now margs mkwargs (qualified_name v) Option.none).expires_at =
      Option.none ∧
    ∀ t : Int, now ≤ t →
      is_cache_valid (wrapper_metadata settings now margs mkwargs (qualified_name v) Option.none)
        t settings = Except.ok false := by
  have hea : wrapper_expires_at settings now = Except.ok Option.none := by
    simp [wrapper_expires_at, hexp]
  refine ⟨?_, rfl, ?_⟩
  · simp [cache_wrapper, cache_wrapper_miss, hco, hea]
  · intro t ht
    simp [is_cache_valid, hexp, htc, wrapper_metadata]
    omega

/-- Witness for c10_zero_expiration: expiration 0, creation clock, payload
3, written at instant 0 and re-judged at instant 0 (its own creation). -/
theorem c10_zero_expiration_witness :
    (cache_wrapper { expiration := Option.some (ExpirationValue.num 0) } sample_func_call
        [] [] Option.none 0 (FuncBehavior.returns (Val.int 3))).set_entry =
      Option.some
        { metadata := wrapper_metadata { expiration := Option.some (ExpirationValue.num 0) }
            0 [] [] (qualified_name (Val.int 3)) Option.none,
          data := Val.int 3 } ∧
    is_cache_valid
      (wrapper_metadata { expiration := Option.some (ExpirationValue.num 0) } 0 [] []
        (qualified_name (Val.int 3)) Option.none)
      0 { expiration := Option.some (ExpirationValue.num 0) } = Except.ok false := by
  have h := c10_zero_expiration { expiration := Option.some (ExpirationValue.num 0) }
    sample_func_call [] [] 0 (Val.int 3) rfl rfl rfl
  exact ⟨h.1, h.2.2 0 (by norm_num)⟩

/-! ### Storage backends (pi_cache/file_cache.py, pi_cache/in_memory_cache.py;
claims C7, C8, C9).

The file backend's directory is modelled as a map from the three per-key
paths the source derives (cache_<K>.json and its .lock and .tmp siblings,
kept structurally, since the string suffixes make them pairwise distinct)
to file contents.  A file content is either a well-formed JSON document or
malformed text, which is exactly the distinction json.loads draws.  Lock
acquisition itself (fcntl.flock polling with timeout) is a real-time
concurrency mechanism outside this single-process model; what is modelled
is its filesystem footprint: the marker file is created on entry and
removed on every exit path. -/

/-- The filesystem paths the file backend touches for a key. -/
inductive CPath where
| entry (k : String)
| lock (k : String)
| tmp (k : String)
deriving DecidableEq

/-- A stored file's content: a well-formed JSON document, or text that
json.loads rejects. -/
inductive StoredText where
| doc (j : JVal)
| malformed (s : String)

def FS : Type := CPath → Option StoredText

def fs_write (fs : FS) (p : CPath) (c : StoredText) : FS :=
  fun q => if q = p then Option.some c else fs q

/-- os.replace: atomically rename src over dst (src ceases to exist, dst
becomes src's content). -/
def fs_replace (fs : FS) (src dst : CPath) : FS :=
  fun q => if q = dst then fs src else if q = src then Option.none else fs q

/-- os.unlink wrapped in the source's try/except OSError: removing a
missing file is a no-op. -/
def fs_unlink (fs : FS) (p : CPath) : FS :=
  fun q => if q = p then Option.none else fs q

/-- The lock marker open(lock_path, "w") leaves behind: an empty file
(empty text is not a JSON document). -/
def lock_marker : StoredText := StoredText.malformed ""

/-- BaseCache.deserialize on raw file text: malformed text makes json.loads
raise JSONDecodeError, which deserialize wraps into ValueError. -/
def deserialize_text (env : DecodeEnv) : StoredText → Except PyErr CacheEntry
| StoredText.doc j => deserialize env j
| StoredText.malformed s => Except.error (PyErr.valueError ("Invalid JSON data: " ++ s))

/-- Which exceptions FileCache.get's except (ValueError, OSError) clause
catches: ValueError (pydantic's ValidationError included); the OSError
family belongs to unmodelled I/O failures.  TypeError, ImportError,
AttributeError and KeyError are not caught and propagate. -/
def caught_by_get : PyErr → Bool
| PyErr.valueError _ => true
| _ => false

/-- FileCache.get: absent file is a miss; otherwise take the lock, read and
deserialize; a caught failure deletes the file (best-effort) and returns a
miss; the lock marker is removed on every exit path. -/
def file_get (env : DecodeEnv) (fs : FS) (k : String) :
    Except PyErr (Option CacheEntry) × FS :=
  match fs (CPath.entry k) with
  | Option.none => (Except.ok Option.none, fs)
  | Option.some txt =>
    let fs1 := fs_write fs (CPath.lock k) lock_marker
    match deserialize_text env txt with
    | Except.ok e => (Except.ok (Option.some e), fs_unlink fs1 (CPath.lock k))
    | Except.error err =>
      if caught_by_get err then
        (Except.ok Option.none, fs_unlink (fs_unlink fs1 (CPath.entry k)) (CPath.lock k))
      else (Except.error err, fs_unlink fs1 (CPath.lock k))

/-- FileCache.set: under the lock, serialize into the sibling .tmp staging
file, atomically rename it over the target, then attempt removal of the
staging path regardless of outcome (a no-op after the rename consumed it);
finally the lock marker is removed. -/
def file_set (fs : FS) (k : String) (entry : CacheEntry) : FS :=
  let fs1 := fs_write fs (CPath.lock k) lock_marker
  let fs2 := fs_write fs1 (CPath.tmp k) (StoredText.doc (serialize entry))
  let fs3 := fs_replace fs2 (CPath.tmp k) (CPath.entry k)
  let fs4 := fs_unlink fs3 (CPath.tmp k)
  fs_unlink fs4 (CPath.lock k)

/-- FileCache.exists: under the lock, report whether the entry file
exists. -/
def file_exists (fs : FS) (k : String) : Bool × FS :=
  ((fs (CPath.entry k)).isSome, fs_unlink (fs_write fs (CPath.lock k) lock_marker) (CPath.lock k))

/-- C7: if the stored file for a key contains structurally invalid content,
FileCache.get returns a miss rather than raising a parse error, and the
corrupted file no longer exists afterwards. -/
theorem c7_corrupt_file_get (env : DecodeEnv) (fs : FS) (k s : String)
    (hc : fs (CPath.entry k) = Option.some (StoredText.malformed s)) :
    (file_get env fs k).1 = Except.ok Option.none ∧
    (file_get env fs k).2 (CPath.entry k) = Option.none := by
  simp [file_get, hc, deserialize_text, caught_by_get, fs_unlink, fs_write]

/-- Witness for c7_corrupt_file_get: a directory holding one corrupted
entry file. -/
theorem c7_corrupt_file_get_witness :
    (file_get c1_env
      (fun p => if p = CPath.entry "K" then Option.some (StoredText.malformed "garbage")
                else Option.none) "K").1 = Except.ok Option.none ∧
    (file_get c1_env
      (fun p => if p = CPath.entry "K" then Option.some (StoredText.malformed "garbage")
                else Option.none) "K").2 (CPath.entry "K") = Option.none :=
  c7_corrupt_file_get c1_env
    (fun p => if p = CPath.entry "K" then Option.some (StoredText.malformed "garbage")
              else Option.none) "K" "garbage" rfl

/-- C8: set stages the serialized entry in the .tmp sibling and renames it
over cache_<k>.json (the final state holds exactly the serialized document
under the entry path), and after set, get or exists complete, neither the
.tmp staging file nor the .lock marker for that key exists (get and exists
create no staging file, so their post-state is stated from a pre-state
without a stale one). -/
theorem c8_atomic_write_cleanup (env : DecodeEnv) (fs : FS) (k : String) (e : CacheEntry)
    (htmp : fs (CPath.tmp k) = Option.none) (hlock : fs (CPath.lock k) = Option.none) :
    (file_set fs k e (CPath.entry k) = Option.some (StoredText.doc (serialize e)) ∧
     file_set fs k e (CPath.tmp k) = Option.none ∧
     file_set fs k e (CPath.lock k) = Option.none) ∧
    ((file_get env fs k).2 (CPath.tmp k) = Option.none ∧
     (file_get env fs k).2 (CPath.lock k) = Option.none) ∧
    ((file_exists fs k).2 (CPath.tmp k) = Option.none ∧
     (file_exists fs k).2 (CPath.lock k) = Option.none) := by
  refine ⟨⟨?_, ?_, ?_⟩, ⟨?_, ?_⟩, ⟨?_, ?_⟩⟩
  · simp [file_set, fs_write, fs_replace, fs_unlink]
  · simp [file_set, fs_write, fs_replace, fs_unlink]
  · simp [file_set, fs_write, fs_replace, fs_unlink]
  · cases hent : fs (CPath.entry k) with
    | none => simpa [file_get, hent] using htmp
    | some txt =>
      cases hdt : deserialize_text env txt with
      | ok e2 => simpa [file_get, hent, hdt, fs_unlink, fs_write] using htmp
      | error err =>
        by_cases hc : caught_by_get err = true <;>
          simpa [file_get, hent, hdt, hc, fs_unlink, fs_write] using htmp
  · cases hent : fs (CPath.entry k) with
    | none => simpa [file_get, hent] using hlock
    | some txt =>
      cases hdt : deserialize_text env txt with
      | ok e2 => simp [file_get, hent, hdt, fs_unlink, fs_write]
      | error err =>
        by_cases hc : caught_by_get err = true <;>
          simp [file_get, hent, hdt, hc, fs_unlink, fs_write]
  · simpa [file_exists, fs_write, fs_unlink] using htmp
  · simp [file_exists, fs_write, fs_unlink]

/-- Witness for c8_atomic_write_cleanup: an empty directory, key K, and a
concrete entry. -/
theorem c8_atomic_write_cleanup_witness :
    (file_set (fun _ => Option.none) "K" c1_native_entry (CPath.entry "K") =
       Option.some (StoredText.doc (serialize c1_native_entry)) ∧
     file_set (fun _ => Option.none) "K" c1_native_entry (CPath.tmp "K") = Option.none ∧
     file_set (fun _ => Option.none) "K" c1_native_entry (CPath.lock "K") = Option.none) ∧
    ((file_get c1_env (fun _ => Option.none) "K").2 (CPath.tmp "K") = Option.none ∧
     (file_get c1_env (fun _ => Option.none) "K").2 (CPath.lock "K") = Option.none) ∧
    ((file_exists (fun _ => Option.none) "K").2 (CPath.tmp "K") = Option.none ∧
     (file_exists (fun _ => Option.none) "K").2 (CPath.lock "K") = Option.none) :=
  c8_atomic_write_cleanup c1_env (fun _ => Option.none) "K" c1_native_entry rfl rfl

/-! ### Backend aliasing on a cache hit (claim C9).

InMemoryCache.get returns the very object held in its _cache dict (no copy
is made), so the wrapper's in-place mutation cache_entry.metadata.from_cache
= True on a valid hit writes through to the stored entry; the store is
modelled at the granularity of the one key the call touches.  FileCache.get
instead reconstructs a fresh entry from the file's text on every read, so
the same mutation never reaches the stored bytes.  (_return_obj can
additionally mutate the returned payload when it attaches metadata; that
write follows the same alias and is outside the payload value model, so the
file/in-memory comparison below is stated for payloads whose declared
builtins type makes _return_obj leave the payload untouched.) -/

/-- One wrapped call against the in-memory backend, at the call's key: the
pair of the slot's new content and the call outcome.  A valid hit leaves
the slot holding the same object the wrapper just mutated (from_cache now
true); a persisting miss overwrites the slot; everything else leaves it
alone. -/
def in_memory_cached_call (settings : CacheSettings) (fc : FuncCall) (margs : List Val)
    (mkwargs : List (String × Val)) (stored : Option CacheEntry) (now : Int)
    (fb : FuncBehavior) : Option CacheEntry × WrapperOutcome :=
  let outcome := cache_wrapper settings fc margs mkwargs stored now fb
  let new_store :=
    match outcome.set_entry with
    | Option.some entry => Option.some entry
    | Option.none =>
      match stored with
      | Option.some e =>
        (match is_cache_valid e.metadata now settings with
         | Except.ok true =>
           Option.some { e with metadata := { e.metadata with from_cache := true } }
         | _ => stored)
      | Option.none => stored
  (new_store, outcome)

/-- One wrapped call against the file backend, at the call's key: get
deserializes a fresh entry from the stored text, the wrapper runs on that
copy, and only an explicit set writes back. -/
def file_cached_call (env : DecodeEnv) (settings : CacheSettings) (fc : FuncCall)
    (margs : List Val) (mkwargs : List (String × Val)) (fs : FS) (k : String) (now : Int)
    (fb : FuncBehavior) : FS × WrapperOutcome :=
  match file_get env fs k with
  | (Except.error err, fs2) =>
    (fs2, { result := Except.error (Raised.pyExc err), invoked_func := false,
            set_entry := Option.none })
  | (Except.ok stored, fs2) =>
    let outcome := cache_wrapper settings fc margs mkwargs stored now fb
    (match outcome.set_entry with
     | Option.some entry => (file_set fs2 k entry, outcome)
     | Option.none => (fs2, outcome))

/-- A stored entry for the C9 instances: a never-expiring cached integer. -/
def c9_entry : CacheEntry :=
  { metadata := { creation_timestamp := Option.some 0,
                  data_type := Option.some "builtins.int" },
    data := Val.int 5 }

/-- C9 counterexample: a cache-hit call against the in-memory backend does
not leave the stored entry unchanged — the wrapper's from_cache flip
mutates the stored object in place, because InMemoryCache.get hands out the
stored object itself rather than a fresh copy. -/
theorem c9_counterexample :
    (in_memory_cached_call {} sample_func_call [] [] (Option.some c9_entry) 1
      (FuncBehavior.returns (Val.int 5))).1 ≠ Option.some c9_entry := by
  intro h
  have h2 : Option.some
      { c9_entry with metadata := { c9_entry.metadata with from_cache := true } } =
      Option.some c9_entry := h
  simp [c9_entry] at h2

/-- A decoding context in which every qualified name resolves to a
non-pydantic class (builtins types included); nothing is registered. -/
def c9_env : DecodeEnv :=
  { registered := fun _ => false, resolve := fun _ => Resolution.nonModelClass }

/-- C9 amended: the file backend does reconstruct a fresh copy on every
read, so a cache-hit call leaves the stored bytes unchanged; the in-memory
backend returns the stored object itself, so the same hit flips from_cache
to true inside the store.  Stated for payloads whose declared builtins type
keeps _return_obj from also mutating the payload. -/
theorem c9_hit_store_effects (env : DecodeEnv) (settings : CacheSettings) (fc : FuncCall)
    (margs : List Val) (mkwargs : List (String × Val)) (fs : FS) (k : String) (now : Int)
    (fb : FuncBehavior) (e : CacheEntry) (txt : StoredText)
    (hfs : fs (CPath.entry k) = Option.some txt)
    (hdes : deserialize_text env txt = Except.ok e)
    (hvalid : is_cache_valid e.metadata now settings = Except.ok true) :
    (file_cached_call env settings fc margs mkwargs fs k now fb).1 (CPath.entry k) =
      Option.some txt ∧
    (in_memory_cached_call settings fc margs mkwargs (Option.some e) now fb).1 =
      Option.some { e with metadata := { e.metadata with from_cache := true } } := by
  constructor
  · simp [file_cached_call, file_get, hfs, hdes, cache_wrapper, hvalid, fs_unlink, fs_write]
  · simp [in_memory_cached_call, cache_wrapper, hvalid]

/-- Witness for c9_hit_store_effects: the stored serialization of c9_entry
under key K, read back and hit at instant 1. -/
theorem c9_hit_store_effects_witness :
    (file_cached_call c9_env {} sample_func_call [] []
        (fun p => if p = CPath.entry "K"
                  then Option.some (StoredText.doc (serialize c9_entry))
                  else Option.none) "K" 1 (FuncBehavior.returns (Val.int 5))).1
      (CPath.entry "K") = Option.some (StoredText.doc (serialize c9_entry)) ∧
    (in_memory_cached_call {} sample_func_call [] [] (Option.some c9_entry) 1
      (FuncBehavior.returns (Val.int 5))).1 =
      Option.some { c9_entry with
        metadata := { c9_entry.metadata with from_cache := true } } :=
  c9_hit_store_effects c9_env {} sample_func_call [] []
    (fun p => if p = CPath.entry "K"
              then Option.some (StoredText.doc (serialize c9_entry))
              else Option.none) "K" 1 (FuncBehavior.returns (Val.int 5)) c9_entry
    (StoredText.doc (serialize c9_entry)) rfl rfl rfl
